import Mathlib

/-!
Shallow embedding of `postgres_db_s3_backup.py` (a postgres-to-S3 backup
utility) together with proofs about it.

The program shells out to `pg_dump | gzip`, checks database connectivity
first, uploads the produced file to an S3-compatible store and deletes the
local copy.  External effects (the subprocess, the filesystem, the network)
are modelled by explicit environment records that fix the outcome of each
external call, and every operation returns the list of externally visible
effects it performed together with an `Except` value standing for Python's
raise/return distinction.
-/

namespace PgBackup

/-- `os.sep` on the POSIX platforms the tool targets. -/
def osSep : String := "/"

/-- Decimal rendering of a natural number, as Python's `str.format` renders a
non-negative integer with the plain `{}` placeholder (written `\x7b\x7d` in the
source): most significant digit first, a single `0` for zero. -/
def toDecimal (n : Nat) : String :=
  if n = 0 then "0" else ⟨((Nat.digits 10 n).reverse.map Nat.digitChar)⟩

/-- Python's `{:02d}` format specifier (zero-pad to a minimum width of two). -/
def pad2 (n : Nat) : String :=
  if n < 10 then "0" ++ toDecimal n else toDecimal n

/-- A UTC wall-clock instant truncated to whole seconds, the part of
`datetime.datetime.utcnow()` that `__generate_timestamp` consumes. -/
structure DateTimeUTC where
  year : Nat
  month : Nat
  day : Nat
  hour : Nat
  minute : Nat
  second : Nat
  deriving DecidableEq

/-- The field ranges `datetime.datetime.utcnow()` can actually produce at any
time in the datetime library's four-digit-year era. -/
def ValidTime (t : DateTimeUTC) : Prop :=
  1000 ≤ t.year ∧ t.year ≤ 9999 ∧ 1 ≤ t.month ∧ t.month ≤ 12 ∧
    1 ≤ t.day ∧ t.day ≤ 31 ∧ t.hour ≤ 23 ∧ t.minute ≤ 59 ∧ t.second ≤ 59

instance (t : DateTimeUTC) : Decidable (ValidTime t) := by
  unfold ValidTime; infer_instance

/-- `DB_Dump.__generate_timestamp`: the format string
`"\x7b\x7d\x7b:02d\x7d\x7b:02d\x7d_\x7b:02d\x7d\x7b:02d\x7d\x7b:02d\x7d_\x7b\x7d"`
applied to year, month, day, hour, minute, second and the literal `UTC`. -/
def generate_timestamp (t : DateTimeUTC) : String :=
  toDecimal t.year ++ pad2 t.month ++ pad2 t.day ++ "_" ++ pad2 t.hour ++
    pad2 t.minute ++ pad2 t.second ++ "_" ++ "UTC"

/-- Spec-side rendering "zero-padded to two digits": the two decimal digits of
`n`, written from the spec's words rather than from the source. -/
def twoDigits (n : Nat) : String :=
  ⟨[Nat.digitChar (n / 10 % 10), Nat.digitChar (n % 10)]⟩

/-- Spec-side rendering `YYYY`: the four decimal digits of `n`, written from
the spec's words rather than from the source. -/
def fourDigits (n : Nat) : String :=
  ⟨[Nat.digitChar (n / 1000 % 10), Nat.digitChar (n / 100 % 10),
    Nat.digitChar (n / 10 % 10), Nat.digitChar (n % 10)]⟩

/-- The spec's timestamp shape `YYYYMMDD_HHMMSS_UTC`, written from the spec's
words, to be compared with the source-derived `generate_timestamp`. -/
def timestampSpec (t : DateTimeUTC) : String :=
  fourDigits t.year ++ twoDigits t.month ++ twoDigits t.day ++ "_" ++
    twoDigits t.hour ++ twoDigits t.minute ++ twoDigits t.second ++ "_UTC"

/-- The externally visible actions the program can perform, in the order they
are issued.  `prepareDir f` stands for `_prepare_output_file(f)` (the
`os.path` checks and possible `makedirs` on `f`'s parent), `connect` for the
`psycopg2.connect`/`close` probe, `runCmd` for the `subprocess.run` of the
shell pipeline, `checkFile` for the post-dump `check_file`, `listBuckets` for
the constructor's `list_buckets`, and the rest for the matching boto3 and
`os` calls. -/
inductive Effect where
  | prepareDir : String → Effect
  | connect : String → Effect
  | logError : String → Effect
  | runCmd : String → Effect
  | checkFile : String → Effect
  | listBuckets : Effect
  | createBucket : String → Effect
  | uploadFile : String → String → String → Effect
  | removeFile : String → Effect
  deriving DecidableEq

/-- Outcome of executing the two-stage shell pipeline `pg_dump ... | gzip ...`:
the exit status of each stage and the combined standard-error text captured
from both stages (both inherit the same `stderr=PIPE` descriptor). -/
structure PipelineResult where
  exit1 : Nat
  exit2 : Nat
  stderrOut : String
  deriving DecidableEq

/-- The text of Python's `subprocess.CalledProcessError` for a non-zero
composite exit status. -/
def calledProcessErrorMsg (r : PipelineResult) : String :=
  "Command returned non-zero exit status " ++ toDecimal r.exit2

/-- `run_command` (lines 32-40): `subprocess.run(command, shell=True,
stdout=PIPE, stderr=PIPE, check=True)` followed by `check_returncode()` and
`check_state(stderr is None or len(stderr) == 0, ...)`.  Under POSIX shell
semantics the exit status of the pipeline `a | b` handed to `sh -c` is the
exit status of its LAST stage, so `check=True` raises exactly when `exit2`
is non-zero; the stage-one status `exit1` is never observed directly. -/
def run_command (r : PipelineResult) : Except String PipelineResult :=
  if r.exit2 ≠ 0 then
    .error (calledProcessErrorMsg r)
  else if ¬ (r.stderrOut = "") then
    .error ("The following error occurred: " ++ r.stderrOut)
  else
    .ok r

/-- `check_file` (lines 48-50): `os.path.exists` then `os.path.isfile`, each
via `check_state`.  The two booleans are the filesystem's answers. -/
def check_file (ex isf : Bool) (filename : String) : Except String Unit :=
  if ¬ ex then .error ("The path '" ++ filename ++ "' does not exist")
  else if ¬ isf then .error ("The path '" ++ filename ++ "' is not a file")
  else .ok ()

/-- `os.path.dirname`: everything before the final path separator. -/
def dirname (p : String) : String :=
  ⟨((p.data.reverse.dropWhile (fun c => c != '/')).drop 1).reverse⟩

/-- `os.path.basename`: the final path component, i.e. the maximal suffix
containing no separator. -/
def basename (p : String) : String :=
  ⟨(p.data.reverse.takeWhile (fun c => c != '/')).reverse⟩

/-- `DB_Dump._prepare_output_file` (lines 76-83): if the parent directory
exists but is not a directory, raise; otherwise create it if missing.  The
booleans are the filesystem's answers about the parent of `output_file`. -/
def prepare_output_file (parentExists parentIsDir : Bool) (output_file : String) :
    Except String Unit :=
  if parentExists then
    if ¬ parentIsDir then
      .error ("A non-directory already has the name '" ++ dirname output_file ++ "'")
    else .ok ()
  else .ok ()

/-- Constructor arguments of `DB_Dump` (line 55). -/
structure DumpConfig where
  user : String
  password : String
  output_dir : String
  host : String
  port : String
  dump_filename_pref : String
  deriving DecidableEq

/-- Outcomes of the external calls one `dump_db` run performs: the parent
directory's state, the `psycopg2.connect` outcome (`none` = the connection
opens and closes, `some e` = it raises with message `e`), the pipeline
execution result and whether the output path exists and is a regular file
after the pipeline ran. -/
structure DumpEnv where
  parentExists : Bool
  parentIsDir : Bool
  connectErr : Option String
  pipeline : PipelineResult
  outExists : Bool
  outIsFile : Bool
  deriving DecidableEq

/-- The message `DB_Dump._check_connection` formats and logs on failure
(lines 70-71). -/
def connFailMsg (cfg : DumpConfig) (dbname cause : String) : String :=
  "Unable to connect to postgres for host=" ++ cfg.host ++ ", dbname=" ++
    dbname ++ " and user=" ++ cfg.user ++ " for Reason: " ++ cause

/-- `DB_Dump._check_connection` (lines 63-73): open and close a connection;
on failure log the formatted message and re-raise the ORIGINAL exception
(the bare `raise`), so the propagated error is the underlying cause alone. -/
def check_connection (cfg : DumpConfig) (connectErr : Option String)
    (dbname : String) : List Effect × Except String Unit :=
  match connectErr with
  | none => ([.connect dbname], .ok ())
  | some e => ([.connect dbname, .logError (connFailMsg cfg dbname e)], .error e)

/-- The output path `dump_db` generates when none is supplied (lines 91-93):
`"\x7b\x7d\x7b\x7d\x7b\x7d.\x7b\x7d.sql.gz"` formatted with the output
directory, `os.sep`, the filename prefix and the generated timestamp. -/
def generated_output_file (cfg : DumpConfig) (t : DateTimeUTC) : String :=
  cfg.output_dir ++ osSep ++ cfg.dump_filename_pref ++ "." ++
    generate_timestamp t ++ ".sql.gz"

/-- The `pg_dump` command string of lines 96-97. -/
def dump_cmd_str (cfg : DumpConfig) (dbname : String) : String :=
  "PGPASSWORD=" ++ cfg.password ++ " pg_dump -h " ++ cfg.host ++ "  -p " ++
    cfg.port ++ " -U " ++ cfg.user ++ " " ++ dbname

/-- The `gzip` command string of line 98. -/
def compress_cmd_str (output_file : String) : String :=
  "gzip > " ++ output_file

/-- The body of `DB_Dump.dump_db` (lines 95-102) after the output path has
been resolved: prepare the parent directory, check connectivity, run the
`pg_dump | gzip` pipeline, check the output file, return the path. -/
def dump_db_resolved (cfg : DumpConfig) (env : DumpEnv)
    (dbname output_file : String) : List Effect × Except String String :=
  match prepare_output_file env.parentExists env.parentIsDir output_file with
  | .error e => ([.prepareDir output_file], .error e)
  | .ok _ =>
    match check_connection cfg env.connectErr dbname with
    | (tr, .error e) => ([.prepareDir output_file] ++ tr, .error e)
    | (tr, .ok _) =>
      let cmd := dump_cmd_str cfg dbname ++ " | " ++ compress_cmd_str output_file
      match run_command env.pipeline with
      | .error e => ([.prepareDir output_file] ++ tr ++ [.runCmd cmd], .error e)
      | .ok _ =>
        match check_file env.outExists env.outIsFile output_file with
        | .error e =>
          ([.prepareDir output_file] ++ tr ++ [.runCmd cmd, .checkFile output_file], .error e)
        | .ok _ =>
          ([.prepareDir output_file] ++ tr ++ [.runCmd cmd, .checkFile output_file],
            .ok output_file)

/-- `DB_Dump.dump_db` (lines 90-102): resolve the output path (generating one
from the configuration and the current UTC time when none is supplied), then
run the resolved body.  `now` is the value of `datetime.datetime.utcnow()` at
the timestamp-generation call. -/
def dump_db (cfg : DumpConfig) (env : DumpEnv) (now : DateTimeUTC)
    (dbname : String) (outOpt : Option String) : List Effect × Except String String :=
  let output_file := match outOpt with
    | some f => f
    | none => generated_output_file cfg now
  dump_db_resolved cfg env dbname output_file

/-- Constructor arguments of `S3Client` (lines 106-111). -/
structure S3Config where
  endpoint_url : String
  access_key : String
  secret_key : String
  data_bucket : String
  deriving DecidableEq

/-- The state an `S3Client` instance holds after `__init__` (lines 113-115):
its configuration and the cached Bucket Registry
(`self.__buckets = __get_bucket_names(...)`, fetched once). -/
structure S3State where
  cfg : S3Config
  buckets : List String
  deriving DecidableEq

/-- `S3Client.__init__` (lines 106-115): connect and fetch the bucket list
once; `bucketNames` is the list the `list_buckets` call returns. -/
def s3client_init (cfg : S3Config) (bucketNames : List String) :
    List Effect × S3State :=
  ([.listBuckets], ⟨cfg, bucketNames⟩)

/-- `S3Client.is_bucket_exists` (lines 164-165): pure membership in the
cached Bucket Registry. -/
def is_bucket_exists (st : S3State) (name : String) : Bool :=
  st.buckets.contains name

/-- `S3Client.setup_bucket` (lines 159-162): if the name is not in the cached
registry, issue `create_bucket`; `createErr` is the service's answer to that
call (`none` = success).  The cached list `st.buckets` is never modified. -/
def setup_bucket (st : S3State) (createErr : Option String) (name : String) :
    List Effect × Except String S3State :=
  if is_bucket_exists st name then ([], .ok st)
  else
    match createErr with
    | some e => ([.createBucket name], .error e)
    | none => ([.createBucket name], .ok st)

/-- `S3Client.upload` (lines 144-151): `check_file`, then `upload_file` with
the base filename as key (the bucket-prefixed `__generate_key` call is
commented out in the source).  `ex`/`isf` are the filesystem's answers for
`local_filename`; `uploadErr` is the service's answer to `upload_file`. -/
def upload (st : S3State) (ex isf : Bool) (uploadErr : Option String)
    (local_filename : String) : List Effect × Except String Unit :=
  match check_file ex isf local_filename with
  | .error e => ([], .error e)
  | .ok _ =>
    let key := basename local_filename
    match uploadErr with
    | some e => ([.uploadFile local_filename st.cfg.data_bucket key], .error e)
    | none => ([.uploadFile local_filename st.cfg.data_bucket key], .ok ())

/-- The eleven configuration keys `main` reads from the ini file
(lines 179-189). -/
structure MainConfig where
  db_user : String
  db_host : String
  db_password : String
  db_port : String
  db_name : String
  s3_endpoint_url : String
  s3_data_bucket : String
  s3_access_key : String
  s3_secret_key : String
  backup_file_pref : String
  backup_output_dir : String
  deriving DecidableEq

/-- The `DB_Dump(...)` construction of line 190. -/
def mkDumpConfig (c : MainConfig) : DumpConfig :=
  ⟨c.db_user, c.db_password, c.backup_output_dir, c.db_host, c.db_port,
    c.backup_file_pref⟩

/-- The `S3Client(...)` construction of line 195. -/
def mkS3Config (c : MainConfig) : S3Config :=
  ⟨c.s3_endpoint_url, c.s3_access_key, c.s3_secret_key, c.s3_data_bucket⟩

/-- Outcomes of every external call one `main` run performs. -/
structure MainEnv where
  dump : DumpEnv
  now : DateTimeUTC
  bucketNames : List String
  createErr : Option String
  artifactExistsAtUpload : Bool
  artifactIsFileAtUpload : Bool
  uploadErr : Option String
  artifactExistsAtCleanup : Bool
  deriving DecidableEq

/-- `main` (lines 168-204) after configuration loading: dump, construct the
client, `setup()` (= `setup_data_bucket` = `setup_bucket(data_bucket)`),
`upload`, then remove the local file if it still exists.  Any raise aborts
the remaining stages. -/
def main_run (c : MainConfig) (env : MainEnv) : List Effect × Except String Unit :=
  match dump_db (mkDumpConfig c) env.dump env.now c.db_name none with
  | (tr, .error e) => (tr, .error e)
  | (tr, .ok output_filename) =>
    let (tr2, st) := s3client_init (mkS3Config c) env.bucketNames
    match setup_bucket st env.createErr st.cfg.data_bucket with
    | (tr3, .error e) => (tr ++ tr2 ++ tr3, .error e)
    | (tr3, .ok st2) =>
      match upload st2 env.artifactExistsAtUpload env.artifactIsFileAtUpload
          env.uploadErr output_filename with
      | (tr4, .error e) => (tr ++ tr2 ++ tr3 ++ tr4, .error e)
      | (tr4, .ok _) =>
        if env.artifactExistsAtCleanup then
          (tr ++ tr2 ++ tr3 ++ tr4 ++ [.removeFile output_filename], .ok ())
        else
          (tr ++ tr2 ++ tr3 ++ tr4, .ok ())

/-- A segment-containment test on character lists: does `pat` occur
contiguously inside `l`? -/
def segAt : List Char → List Char → Bool
  | _, [] => true
  | [], _ :: _ => false
  | a :: as, b :: bs => a == b && segAt as bs

/-- Whether `pat` occurs contiguously somewhere in `l`. -/
def containsSeg : List Char → List Char → Bool
  | [], pat => pat.isEmpty
  | a :: as, pat => segAt (a :: as) pat || containsSeg as pat

/-- Whether the string `pat` occurs contiguously inside `s`. -/
def strContains (s pat : String) : Bool :=
  containsSeg s.data pat.data

/-! ### Helper lemmas: decimal rendering -/

theorem digits_of_lt_ten {n : Nat} (h1 : 1 ≤ n) (h2 : n < 10) :
    Nat.digits 10 n = [n] := by
  rw [Nat.digits_def' (by norm_num) (by omega)]
  have hz : n / 10 = 0 := by omega
  have hm : n % 10 = n := by omega
  rw [hz, hm, Nat.digits_zero]

theorem digits_two_of_bounds {n : Nat} (h1 : 10 ≤ n) (h2 : n < 100) :
    Nat.digits 10 n = [n % 10, n / 10 % 10] := by
  rw [Nat.digits_def' (by norm_num) (by omega)]
  have h3 : 1 ≤ n / 10 := by omega
  have h4 : n / 10 < 10 := by omega
  rw [digits_of_lt_ten h3 h4]
  have hm : n / 10 % 10 = n / 10 := by omega
  rw [hm]

theorem digits_four_of_bounds {n : Nat} (h1 : 1000 ≤ n) (h2 : n ≤ 9999) :
    Nat.digits 10 n = [n % 10, n / 10 % 10, n / 100 % 10, n / 1000 % 10] := by
  rw [Nat.digits_def' (by norm_num) (by omega)]
  rw [Nat.digits_def' (by norm_num) (by omega)]
  rw [Nat.digits_def' (by norm_num) (by omega)]
  have e1 : n / 10 / 10 = n / 100 := by omega
  have e2 : n / 10 / 10 / 10 = n / 1000 := by omega
  rw [e1] at *
  rw [e2]
  have h3 : 1 ≤ n / 1000 := by omega
  have h4 : n / 1000 < 10 := by omega
  rw [digits_of_lt_ten h3 h4]
  have hm : n / 1000 % 10 = n / 1000 := by omega
  rw [hm]

theorem pad2_eq_twoDigits {n : Nat} (h : n < 100) : pad2 n = twoDigits n := by
  by_cases h0 : n = 0
  · subst h0; decide
  · by_cases h10 : n < 10
    · unfold pad2 toDecimal twoDigits
      rw [if_pos h10, if_neg h0,
        digits_of_lt_ten (by omega) h10]
      have e1 : n / 10 % 10 = 0 := by omega
      have e2 : n % 10 = n := by omega
      rw [e1, e2]
      apply String.ext
      simp [String.data_append]
      rfl
    · unfold pad2 toDecimal twoDigits
      rw [if_neg h10, if_neg h0, digits_two_of_bounds (by omega) h]
      rfl

theorem toDecimal_eq_fourDigits {n : Nat} (h1 : 1000 ≤ n) (h2 : n ≤ 9999) :
    toDecimal n = fourDigits n := by
  unfold toDecimal fourDigits
  rw [if_neg (by omega), digits_four_of_bounds h1 h2]
  rfl

theorem generate_timestamp_eq_spec {t : DateTimeUTC} (h : ValidTime t) :
    generate_timestamp t = timestampSpec t := by
  obtain ⟨hy1, hy2, hmo1, hmo2, hd1, hd2, hh, hmi, hs⟩ := h
  unfold generate_timestamp timestampSpec
  rw [toDecimal_eq_fourDigits hy1 hy2, pad2_eq_twoDigits (by omega : t.month < 100),
    pad2_eq_twoDigits (by omega : t.day < 100), pad2_eq_twoDigits (by omega : t.hour < 100),
    pad2_eq_twoDigits (by omega : t.minute < 100), pad2_eq_twoDigits (by omega : t.second < 100)]
  apply String.ext
  simp [String.data_append]

/-! ### Helper lemmas: string containment and basename -/

theorem segAt_append_self : ∀ (pat y : List Char), segAt (pat ++ y) pat = true := by
  intro pat
  induction pat with
  | nil => intro y; cases y <;> rfl
  | cons b bs ih =>
    intro y
    simp only [List.cons_append, segAt, beq_self_eq_true, Bool.true_and]
    exact ih y

theorem containsSeg_of_segAt : ∀ {l pat : List Char}, segAt l pat = true →
    containsSeg l pat = true := by
  intro l pat h
  cases l with
  | nil =>
    cases pat with
    | nil => rfl
    | cons b bs => exact absurd h (by simp [segAt])
  | cons a as => simp [containsSeg, h]

theorem containsSeg_cons {a : Char} {as pat : List Char}
    (h : containsSeg as pat = true) : containsSeg (a :: as) pat = true := by
  simp [containsSeg, h]

theorem containsSeg_append_left : ∀ (x : List Char) {l pat : List Char},
    containsSeg l pat = true → containsSeg (x ++ l) pat = true := by
  intro x
  induction x with
  | nil => intro l pat h; exact h
  | cons a as ih => intro l pat h; exact containsSeg_cons (ih h)

theorem strContains_parts (a b c : String) : strContains (a ++ b ++ c) b = true := by
  unfold strContains
  have hd : (a ++ b ++ c).data = a.data ++ (b.data ++ c.data) := by
    simp [String.data_append]
  rw [hd]
  exact containsSeg_append_left a.data (containsSeg_of_segAt (segAt_append_self b.data c.data))

theorem dropWhile_head_false (q : Char → Bool) :
    ∀ {l : List Char} {d : Char} {ds : List Char},
      l.dropWhile q = d :: ds → q d = false := by
  intro l
  induction l with
  | nil => intro d ds h; simp [List.dropWhile] at h
  | cons a as ih =>
    intro d ds h
    by_cases ha : q a
    · rw [List.dropWhile_cons_of_pos ha] at h
      exact ih h
    · rw [List.dropWhile_cons_of_neg ha] at h
      cases h
      exact Bool.of_not_eq_true ha

theorem basename_no_sep (p : String) : ∀ c ∈ (basename p).data, c ≠ '/' := by
  intro c hc
  unfold basename at hc
  simp only [List.mem_reverse] at hc
  have := List.mem_takeWhile_imp hc
  simpa using this

theorem basename_decomp (p : String) :
    (basename p).data = p.data ∨
      ∃ pre, p.data = pre ++ '/' :: (basename p).data := by
  have hsplit :
      p.data.reverse.takeWhile (fun c => c != '/') ++
        p.data.reverse.dropWhile (fun c => c != '/') = p.data.reverse :=
    List.takeWhile_append_dropWhile (fun c => c != '/') p.data.reverse
  cases hdw : p.data.reverse.dropWhile (fun c => c != '/') with
  | nil =>
    left
    rw [hdw, List.append_nil] at hsplit
    unfold basename
    rw [hsplit, List.reverse_reverse]
  | cons d ds =>
    right
    have hdfalse : (d != '/') = false :=
      dropWhile_head_false (fun c => c != '/') hdw
    have hd : d = '/' := by
      have : (d == '/') = true := by
        cases hdd : d == '/'
        · rw [bne, hdd] at hdfalse; simp at hdfalse
        · rfl
      exact eq_of_beq this
    refine ⟨ds.reverse, ?_⟩
    have hp : p.data = (p.data.reverse).reverse := (List.reverse_reverse p.data).symm
    rw [hp, ← hsplit, hdw]
    unfold basename
    rw [List.reverse_append, List.reverse_cons, hd]
    simp

theorem strContains_of_eq_parts {s a b c : String} (h : s = a ++ b ++ c) :
    strContains s b = true := by
  rw [h]; exact strContains_parts a b c

/-! ### Helper lemmas: shapes of `dump_db_resolved` runs -/

theorem dump_db_resolved_mem (cfg : DumpConfig) (env : DumpEnv)
    (dbname output_file : String) (ef : Effect)
    (h : ef ∈ (dump_db_resolved cfg env dbname output_file).1) :
    ef = .prepareDir output_file ∨ ef = .connect dbname ∨
    (∃ m, ef = .logError m) ∨ (∃ cm, ef = .runCmd cm) ∨
    ef = .checkFile output_file := by
  cases hp : prepare_output_file env.parentExists env.parentIsDir output_file with
  | error e0 =>
    simp [dump_db_resolved, hp] at h
    simp [h]
  | ok u =>
    cases hce : env.connectErr with
    | some e0 =>
      simp [dump_db_resolved, hp, check_connection, hce] at h
      rcases h with rfl | rfl | rfl <;> simp
    | none =>
      cases hr : run_command env.pipeline with
      | error e0 =>
        simp [dump_db_resolved, hp, check_connection, hce, hr] at h
        rcases h with rfl | rfl | rfl <;> simp
      | ok r =>
        cases hcf : check_file env.outExists env.outIsFile output_file with
        | error e0 =>
          simp [dump_db_resolved, hp, check_connection, hce, hr, hcf] at h
          rcases h with rfl | rfl | rfl | rfl <;> simp
        | ok u2 =>
          simp [dump_db_resolved, hp, check_connection, hce, hr, hcf] at h
          rcases h with rfl | rfl | rfl | rfl <;> simp

theorem dump_db_resolved_ok (cfg : DumpConfig) (env : DumpEnv)
    (dbname output_file out : String)
    (h : (dump_db_resolved cfg env dbname output_file).2 = .ok out) :
    out = output_file := by
  cases hp : prepare_output_file env.parentExists env.parentIsDir output_file with
  | error e0 => simp [dump_db_resolved, hp] at h
  | ok u =>
    cases hce : env.connectErr with
    | some e0 => simp [dump_db_resolved, hp, check_connection, hce] at h
    | none =>
      cases hr : run_command env.pipeline with
      | error e0 => simp [dump_db_resolved, hp, check_connection, hce, hr] at h
      | ok r =>
        cases hcf : check_file env.outExists env.outIsFile output_file with
        | error e0 => simp [dump_db_resolved, hp, check_connection, hce, hr, hcf] at h
        | ok u2 =>
          simp [dump_db_resolved, hp, check_connection, hce, hr, hcf] at h
          exact h.symm

theorem dump_db_resolved_connect_fail (cfg : DumpConfig) (env : DumpEnv)
    (dbname output_file e : String) (hce : env.connectErr = some e) :
    (∃ err, (dump_db_resolved cfg env dbname output_file).2 = .error err) ∧
    ∀ cm, Effect.runCmd cm ∉ (dump_db_resolved cfg env dbname output_file).1 := by
  cases hp : prepare_output_file env.parentExists env.parentIsDir output_file with
  | error e0 =>
    refine ⟨⟨e0, by simp [dump_db_resolved, hp]⟩, ?_⟩
    intro cm
    simp [dump_db_resolved, hp]
  | ok u =>
    refine ⟨⟨e, by simp [dump_db_resolved, hp, check_connection, hce]⟩, ?_⟩
    intro cm
    simp [dump_db_resolved, hp, check_connection, hce]

theorem dump_db_resolved_runCmd_shape (cfg : DumpConfig) (env : DumpEnv)
    (dbname output_file : String) (cm : String)
    (h : Effect.runCmd cm ∈ (dump_db_resolved cfg env dbname output_file).1) :
    ∃ rest, (dump_db_resolved cfg env dbname output_file).1 =
      .prepareDir output_file :: .connect dbname :: .runCmd cm :: rest := by
  cases hp : prepare_output_file env.parentExists env.parentIsDir output_file with
  | error e0 => simp [dump_db_resolved, hp] at h
  | ok u =>
    cases hce : env.connectErr with
    | some e0 => simp [dump_db_resolved, hp, check_connection, hce] at h
    | none =>
      cases hr : run_command env.pipeline with
      | error e0 =>
        simp only [dump_db_resolved, hp, check_connection, hr] at h ⊢
        rw [hce] at h ⊢
        simp at h
        subst h
        exact ⟨[], rfl⟩
      | ok r =>
        cases hcf : check_file env.outExists env.outIsFile output_file with
        | error e0 =>
          simp only [dump_db_resolved, hp, check_connection, hr, hcf] at h ⊢
          rw [hce] at h ⊢
          simp at h
          subst h
          exact ⟨[.checkFile output_file], rfl⟩
        | ok u2 =>
          simp only [dump_db_resolved, hp, check_connection, hr, hcf] at h ⊢
          rw [hce] at h ⊢
          simp at h
          subst h
          exact ⟨[.checkFile output_file], rfl⟩

theorem setup_bucket_mem (st : S3State) (ce : Option String) (name : String)
    (ef : Effect) (h : ef ∈ (setup_bucket st ce name).1) :
    ef = .createBucket name := by
  by_cases hb : is_bucket_exists st name = true
  · simp [setup_bucket, hb] at h
  · cases ce <;> simp [setup_bucket, hb] at h <;> exact h

theorem upload_mem (st : S3State) (ex isf : Bool) (ue : Option String)
    (p : String) (ef : Effect) (h : ef ∈ (upload st ex isf ue p).1) :
    ef = .uploadFile p st.cfg.data_bucket (basename p) := by
  cases hcf : check_file ex isf p with
  | error e => simp [upload, hcf] at h
  | ok u => cases ue <;> simp [upload, hcf] at h <;> exact h

theorem upload_ok (st : S3State) (ex isf : Bool) (ue : Option String) (p : String)
    (h : (upload st ex isf ue p).2 = .ok ()) :
    ue = none ∧ ex = true ∧ isf = true ∧
    (upload st ex isf ue p).1 = [.uploadFile p st.cfg.data_bucket (basename p)] := by
  cases ex with
  | false => simp [upload, check_file] at h
  | true =>
    cases isf with
    | false => simp [upload, check_file] at h
    | true =>
      cases ue with
      | some e => simp [upload, check_file] at h
      | none => exact ⟨rfl, rfl, rfl, by simp [upload, check_file]⟩

theorem setup_bucket_ok (st : S3State) (ce : Option String) (name : String)
    (st2 : S3State) (h : (setup_bucket st ce name).2 = .ok st2) : st2 = st := by
  by_cases hb : is_bucket_exists st name = true
  · simp [setup_bucket, hb] at h
    exact h.symm
  · cases ce with
    | none =>
      simp [setup_bucket, hb] at h
      exact h.symm
    | some e => simp [setup_bucket, hb] at h

/-! ### Helper lemmas: shapes of `main_run` runs -/

theorem main_run_dump_fail (c : MainConfig) (env : MainEnv) (e : String)
    (h : (dump_db (mkDumpConfig c) env.dump env.now c.db_name none).2 = .error e) :
    main_run c env =
      ((dump_db (mkDumpConfig c) env.dump env.now c.db_name none).1, .error e) := by
  rcases hd : dump_db (mkDumpConfig c) env.dump env.now c.db_name none with ⟨tr, res⟩
  rw [hd] at h
  simp at h
  subst h
  simp [main_run, hd]

theorem main_run_split (c : MainConfig) (env : MainEnv) :
    ∃ X, (main_run c env).1 =
      (dump_db (mkDumpConfig c) env.dump env.now c.db_name none).1 ++ X ∧
      ∀ ef ∈ X, ef = .listBuckets ∨ ef = .createBucket c.s3_data_bucket ∨
        (∃ f k, ef = .uploadFile f c.s3_data_bucket k) ∨
        (∃ f, ef = .removeFile f) := by
  rcases hd : dump_db (mkDumpConfig c) env.dump env.now c.db_name none with ⟨tr, res⟩
  cases res with
  | error e =>
    refine ⟨[], ?_, by simp⟩
    simp [main_run, hd]
  | ok out =>
    rcases hsb : setup_bucket ⟨mkS3Config c, env.bucketNames⟩ env.createErr
        (mkS3Config c).data_bucket with ⟨tr3, res3⟩
    have htr3 : ∀ ef ∈ tr3, ef = Effect.createBucket c.s3_data_bucket := by
      intro ef hef
      have hm := setup_bucket_mem ⟨mkS3Config c, env.bucketNames⟩ env.createErr
        ((mkS3Config c).data_bucket) ef (by rw [hsb]; exact hef)
      simpa [mkS3Config] using hm
    cases res3 with
    | error e3 =>
      refine ⟨[.listBuckets] ++ tr3, ?_, ?_⟩
      · simp [main_run, hd, s3client_init, hsb]
      · intro ef hef
        rcases List.mem_append.mp hef with hef | hef
        · simp at hef
          simp [hef]
        · simp [htr3 ef hef]
    | ok st2 =>
      have hst2 : st2 = ⟨mkS3Config c, env.bucketNames⟩ :=
        setup_bucket_ok _ _ _ _ (by rw [hsb])
      subst hst2
      rcases hup : upload ⟨mkS3Config c, env.bucketNames⟩ env.artifactExistsAtUpload
          env.artifactIsFileAtUpload env.uploadErr out with ⟨tr4, res4⟩
      have htr4 : ∀ ef ∈ tr4,
          ef = Effect.uploadFile out c.s3_data_bucket (basename out) := by
        intro ef hef
        have hm := upload_mem ⟨mkS3Config c, env.bucketNames⟩
          env.artifactExistsAtUpload env.artifactIsFileAtUpload env.uploadErr out ef
          (by rw [hup]; exact hef)
        simpa [mkS3Config] using hm
      cases res4 with
      | error e4 =>
        refine ⟨[.listBuckets] ++ tr3 ++ tr4, ?_, ?_⟩
        · simp [main_run, hd, s3client_init, hsb, hup]
        · intro ef hef
          rcases List.mem_append.mp hef with hef | hef
          · rcases List.mem_append.mp hef with hef | hef
            · simp at hef
              simp [hef]
            · simp [htr3 ef hef]
          · simp [htr4 ef hef]
      | ok u =>
        cases hcl : env.artifactExistsAtCleanup with
        | false =>
          refine ⟨[.listBuckets] ++ tr3 ++ tr4, ?_, ?_⟩
          · simp [main_run, hd, s3client_init, hsb, hup, hcl]
          · intro ef hef
            rcases List.mem_append.mp hef with hef | hef
            · rcases List.mem_append.mp hef with hef | hef
              · simp at hef
                simp [hef]
              · simp [htr3 ef hef]
            · simp [htr4 ef hef]
        | true =>
          refine ⟨[.listBuckets] ++ tr3 ++ tr4 ++ [.removeFile out], ?_, ?_⟩
          · simp [main_run, hd, s3client_init, hsb, hup, hcl]
          · intro ef hef
            rcases List.mem_append.mp hef with hef | hef
            · rcases List.mem_append.mp hef with hef | hef
              · rcases List.mem_append.mp hef with hef | hef
                · simp at hef
                  simp [hef]
                · simp [htr3 ef hef]
              · simp [htr4 ef hef]
            · simp at hef
              simp [hef]

theorem main_run_runCmd_shape (c : MainConfig) (env : MainEnv) (cm : String)
    (h : Effect.runCmd cm ∈ (main_run c env).1) :
    ∃ rest, (main_run c env).1 =
      .prepareDir (generated_output_file (mkDumpConfig c) env.now) ::
        .connect c.db_name :: .runCmd cm :: rest := by
  obtain ⟨X, hX, hXmem⟩ := main_run_split c env
  rw [hX] at h
  rcases List.mem_append.mp h with h | h
  · have hdd : dump_db (mkDumpConfig c) env.dump env.now c.db_name none =
        dump_db_resolved (mkDumpConfig c) env.dump c.db_name
          (generated_output_file (mkDumpConfig c) env.now) := rfl
    rw [hdd] at h hX
    obtain ⟨rest, hshape⟩ := dump_db_resolved_runCmd_shape _ _ _ _ cm h
    refine ⟨rest ++ X, ?_⟩
    rw [hX, hshape]
    simp
  · rcases hXmem _ h with h2 | h2 | ⟨f, k, h2⟩ | ⟨f, h2⟩ <;> simp at h2

theorem main_run_remove_mem (c : MainConfig) (env : MainEnv) (f : String)
    (h : Effect.removeFile f ∈ (main_run c env).1) :
    env.uploadErr = none ∧ env.artifactExistsAtUpload = true ∧
    env.artifactIsFileAtUpload = true ∧ (main_run c env).2 = .ok () ∧
    ∃ l1 l2, (main_run c env).1 =
      l1 ++ .uploadFile f c.s3_data_bucket (basename f) :: l2 ∧
      Effect.removeFile f ∈ l2 := by
  have hdef : dump_db (mkDumpConfig c) env.dump env.now c.db_name none =
      dump_db_resolved (mkDumpConfig c) env.dump c.db_name
        (generated_output_file (mkDumpConfig c) env.now) := rfl
  rcases hd : dump_db (mkDumpConfig c) env.dump env.now c.db_name none with ⟨tr, res⟩
  have hd2 : dump_db_resolved (mkDumpConfig c) env.dump c.db_name
      (generated_output_file (mkDumpConfig c) env.now) = (tr, res) := by
    rw [← hdef, hd]
  have htr : ∀ g : String, ∀ ef ∈ tr, ef ≠ Effect.removeFile g := by
    intro g ef hef
    have hm := dump_db_resolved_mem (mkDumpConfig c) env.dump c.db_name
      (generated_output_file (mkDumpConfig c) env.now) ef (by rw [hd2]; exact hef)
    rcases hm with rfl | rfl | ⟨m, rfl⟩ | ⟨cm2, rfl⟩ | rfl <;> simp
  cases res with
  | error e =>
    have hm := main_run_dump_fail c env e (by rw [hd])
    rw [hm] at h
    simp only [hd] at h
    exact absurd rfl (htr f _ h)
  | ok out =>
    rcases hsb : setup_bucket ⟨mkS3Config c, env.bucketNames⟩ env.createErr
        (mkS3Config c).data_bucket with ⟨tr3, res3⟩
    have htr3 : ∀ g : String, ∀ ef ∈ tr3, ef ≠ Effect.removeFile g := by
      intro g ef hef
      have hm := setup_bucket_mem ⟨mkS3Config c, env.bucketNames⟩ env.createErr
        ((mkS3Config c).data_bucket) ef (by rw [hsb]; exact hef)
      rw [hm]
      simp
    cases res3 with
    | error e3 =>
      have hm : main_run c env = (tr ++ Effect.listBuckets :: tr3, .error e3) := by
        simp [main_run, hd, s3client_init, hsb]
      rw [hm] at h
      rcases List.mem_append.mp h with h2 | h2
      · exact absurd rfl (htr f _ h2)
      · rcases List.mem_cons.mp h2 with h3 | h3
        · simp at h3
        · exact absurd rfl (htr3 f _ h3)
    | ok st2 =>
      have hst2 : st2 = ⟨mkS3Config c, env.bucketNames⟩ :=
        setup_bucket_ok _ _ _ _ (by rw [hsb])
      subst hst2
      rcases hup : upload ⟨mkS3Config c, env.bucketNames⟩ env.artifactExistsAtUpload
          env.artifactIsFileAtUpload env.uploadErr out with ⟨tr4, res4⟩
      have htr4 : ∀ g : String, ∀ ef ∈ tr4, ef ≠ Effect.removeFile g := by
        intro g ef hef
        have hm := upload_mem ⟨mkS3Config c, env.bucketNames⟩
          env.artifactExistsAtUpload env.artifactIsFileAtUpload env.uploadErr out ef
          (by rw [hup]; exact hef)
        rw [hm]
        simp
      cases res4 with
      | error e4 =>
        have hm : main_run c env =
            (tr ++ Effect.listBuckets :: (tr3 ++ tr4), .error e4) := by
          simp [main_run, hd, s3client_init, hsb, hup]
        rw [hm] at h
        rcases List.mem_append.mp h with h2 | h2
        · exact absurd rfl (htr f _ h2)
        · rcases List.mem_cons.mp h2 with h3 | h3
          · simp at h3
          · rcases List.mem_append.mp h3 with h4 | h4
            · exact absurd rfl (htr3 f _ h4)
            · exact absurd rfl (htr4 f _ h4)
      | ok u =>
        cases hcl : env.artifactExistsAtCleanup with
        | false =>
          have hm : main_run c env =
              (tr ++ Effect.listBuckets :: (tr3 ++ tr4), .ok ()) := by
            simp [main_run, hd, s3client_init, hsb, hup, hcl]
          rw [hm] at h
          rcases List.mem_append.mp h with h2 | h2
          · exact absurd rfl (htr f _ h2)
          · rcases List.mem_cons.mp h2 with h3 | h3
            · simp at h3
            · rcases List.mem_append.mp h3 with h4 | h4
              · exact absurd rfl (htr3 f _ h4)
              · exact absurd rfl (htr4 f _ h4)
        | true =>
          have hm : main_run c env =
              (tr ++ Effect.listBuckets ::
                (tr3 ++ (tr4 ++ [Effect.removeFile out])), .ok ()) := by
            simp [main_run, hd, s3client_init, hsb, hup, hcl]
          have hfo : f = out := by
            rw [hm] at h
            rcases List.mem_append.mp h with h2 | h2
            · exact absurd rfl (htr f _ h2)
            · rcases List.mem_cons.mp h2 with h3 | h3
              · simp at h3
              · rcases List.mem_append.mp h3 with h4 | h4
                · exact absurd rfl (htr3 f _ h4)
                · rcases List.mem_append.mp h4 with h5 | h5
                  · exact absurd rfl (htr4 f _ h5)
                  · simp at h5
                    exact h5
          subst hfo
          have hu : u = () := rfl
          have hok := upload_ok ⟨mkS3Config c, env.bucketNames⟩
            env.artifactExistsAtUpload env.artifactIsFileAtUpload env.uploadErr f
            (by rw [hup, hu])
          obtain ⟨hue, hex, hisf, htr4eq⟩ := hok
          rw [hup] at htr4eq
          simp only [mkS3Config] at htr4eq
          refine ⟨hue, hex, hisf, by rw [hm], ?_⟩
          refine ⟨tr ++ Effect.listBuckets :: tr3, [Effect.removeFile f], ?_, by simp⟩
          rw [hm]
          simp only [htr4eq]
          simp

/-- C2, as stated, is false: `run_command` hands the pipeline to `sh -c`,
whose exit status is that of the LAST stage, so a first-stage (`pg_dump`)
failure with exit status 1 that produces no stderr output is invisible —
`run_command` returns successfully.  The claim demanded an error for a
non-zero exit status from either stage. -/
theorem run_command_stage1_counterexample :
    run_command ⟨1, 0, ""⟩ = .ok ⟨1, 0, ""⟩ ∧
    ¬ (∀ r : PipelineResult, (r.exit1 ≠ 0 ∨ r.exit2 ≠ 0 ∨ r.stderrOut ≠ "") →
        ∃ e, run_command r = .error e) := by
  constructor
  · rfl
  · intro h
    rcases h ⟨1, 0, ""⟩ (Or.inl (by decide)) with ⟨e, he⟩
    simp [run_command] at he

/-- C2 amended: `run_command` raises exactly when the pipeline's overall exit
status (that of the final stage, under POSIX shell semantics) is non-zero or
the captured error stream is non-empty, and returns successfully exactly when
that status is zero and the stream is empty; on such a failure `dump_db`
aborts with the captured error after a single command invocation. -/
theorem run_command_failure_semantics (r : PipelineResult) :
    ((∃ e, run_command r = .error e) ↔ (r.exit2 ≠ 0 ∨ r.stderrOut ≠ "")) ∧
    (run_command r = .ok r ↔ (r.exit2 = 0 ∧ r.stderrOut = "")) ∧
    (∀ (cfg : DumpConfig) (env : DumpEnv) (now : DateTimeUTC) (dbname : String)
        (e : String),
      env.parentExists = false → env.connectErr = none → env.pipeline = r →
      run_command r = .error e →
      dump_db cfg env now dbname none =
        ([.prepareDir (generated_output_file cfg now), .connect dbname,
          .runCmd (dump_cmd_str cfg dbname ++ " | " ++
            compress_cmd_str (generated_output_file cfg now))], .error e)) := by
  refine ⟨?_, ?_, ?_⟩
  · by_cases h2 : r.exit2 = 0
    · by_cases hs : r.stderrOut = ""
      · simp [run_command, h2, hs]
      · simp [run_command, h2, hs]
    · simp [run_command, h2]
  · by_cases h2 : r.exit2 = 0
    · by_cases hs : r.stderrOut = ""
      · simp [run_command, h2, hs]
      · simp [run_command, h2, hs]
    · simp [run_command, h2]
  · intro cfg env now dbname e hpe hce hpl hrc
    simp [dump_db, dump_db_resolved, prepare_output_file, check_connection, hpe,
      hce, hpl, hrc]

theorem run_command_failure_semantics_witness :
    (∃ e, run_command ⟨0, 2, ""⟩ = .error e) ∧
    run_command ⟨0, 0, ""⟩ = .ok ⟨0, 0, ""⟩ := by
  exact ⟨(run_command_failure_semantics ⟨0, 2, ""⟩).1.mpr (Or.inl (by decide)),
    (run_command_failure_semantics ⟨0, 0, ""⟩).2.1.mpr (by decide)⟩

/-! ### Claim C4 -/

/-- C4: when the local path names an existing regular file, the put-object
call uses exactly the path's base name as the storage key: the key contains
no separator and the path decomposes as an (possibly empty) directory part
followed by the key, so no directory or bucket prefix is applied. -/
theorem upload_key_is_basename (st : S3State) (ue : Option String) (p : String) :
    (upload st true true ue p).1 =
      [.uploadFile p st.cfg.data_bucket (basename p)] ∧
    (∀ c ∈ (basename p).data, c ≠ '/') ∧
    ((basename p).data = p.data ∨
      ∃ pre, p.data = pre ++ '/' :: (basename p).data) := by
  refine ⟨?_, basename_no_sep p, basename_decomp p⟩
  cases ue <;> simp [upload, check_file]

theorem upload_key_is_basename_witness :
    (upload ⟨⟨"http://s3", "ak", "sk", "bk"⟩, []⟩ true true none
        "/tmp/b/nightly.x.sql.gz").1 =
      [.uploadFile "/tmp/b/nightly.x.sql.gz" "bk" (basename "/tmp/b/nightly.x.sql.gz")] :=
  (upload_key_is_basename ⟨⟨"http://s3", "ak", "sk", "bk"⟩, []⟩ none
    "/tmp/b/nightly.x.sql.gz").1

/-! ### Claim C5 -/

/-- C5: if the path does not exist or is not a regular file, `upload` raises
an error whose text names the path and performs no put-object call; a
put-object call occurs only when the path exists and is a regular file. -/
theorem upload_missing_file_fails_fast (st : S3State) (ue : Option String)
    (p : String) (ex isf : Bool) :
    (¬ (ex = true ∧ isf = true) →
      (∃ e, (upload st ex isf ue p).2 = .error e ∧ strContains e p = true) ∧
      (upload st ex isf ue p).1 = []) ∧
    (∀ f b k, Effect.uploadFile f b k ∈ (upload st ex isf ue p).1 →
      ex = true ∧ isf = true) := by
  cases ex with
  | false =>
    refine ⟨fun _ => ⟨⟨"The path '" ++ p ++ "' does not exist", ?_, ?_⟩, ?_⟩, ?_⟩
    · simp [upload, check_file]
    · exact strContains_of_eq_parts rfl
    · simp [upload, check_file]
    · intro f b k hm
      simp [upload, check_file] at hm
  | true =>
    cases isf with
    | false =>
      refine ⟨fun _ => ⟨⟨"The path '" ++ p ++ "' is not a file", ?_, ?_⟩, ?_⟩, ?_⟩
      · simp [upload, check_file]
      · exact strContains_of_eq_parts rfl
      · simp [upload, check_file]
      · intro f b k hm
        simp [upload, check_file] at hm
    | true =>
      exact ⟨fun h => absurd ⟨rfl, rfl⟩ h, fun _ _ _ _ => ⟨rfl, rfl⟩⟩

theorem upload_missing_file_fails_fast_witness :
    (∃ e, (upload ⟨⟨"http://s3", "ak", "sk", "bk"⟩, []⟩ false true none
        "/tmp/b/gone.sql.gz").2 = .error e ∧
      strContains e "/tmp/b/gone.sql.gz" = true) ∧
    (upload ⟨⟨"http://s3", "ak", "sk", "bk"⟩, []⟩ false true none
        "/tmp/b/gone.sql.gz").1 = [] :=
  (upload_missing_file_fails_fast ⟨⟨"http://s3", "ak", "sk", "bk"⟩, []⟩ none
    "/tmp/b/gone.sql.gz" false true).1 (by decide)

/-! ### Claim C6 -/

/-- C6: `setup_bucket` is idempotent for the caller: when the bucket is in
the cached Bucket Registry it raises no error and issues no create call —
whatever the storage service would answer — so a second call on the same
(unchanged) client state behaves identically; a create-bucket call is issued
exactly when the name is absent from the registry. -/
theorem setup_bucket_idempotent (st : S3State) (ce ce2 : Option String)
    (name : String) :
    (is_bucket_exists st name = true →
      setup_bucket st ce name = ([], .ok st) ∧
      setup_bucket st ce2 name = ([], .ok st)) ∧
    (Effect.createBucket name ∈ (setup_bucket st ce name).1 ↔
      is_bucket_exists st name = false) := by
  by_cases h : is_bucket_exists st name = true
  · refine ⟨fun _ => ⟨?_, ?_⟩, ?_⟩
    · simp [setup_bucket, h]
    · simp [setup_bucket, h]
    · simp [setup_bucket, h]
  · refine ⟨fun hh => absurd hh h, ?_⟩
    cases ce <;> simp [setup_bucket, h]

theorem setup_bucket_idempotent_witness :
    setup_bucket ⟨⟨"http://s3", "ak", "sk", "data"⟩, ["data"]⟩ none "data" =
      ([], .ok ⟨⟨"http://s3", "ak", "sk", "data"⟩, ["data"]⟩) ∧
    setup_bucket ⟨⟨"http://s3", "ak", "sk", "data"⟩, ["data"]⟩ (some "boom") "data" =
      ([], .ok ⟨⟨"http://s3", "ak", "sk", "data"⟩, ["data"]⟩) :=
  ⟨((setup_bucket_idempotent ⟨⟨"http://s3", "ak", "sk", "data"⟩, ["data"]⟩
      none (some "boom") "data").1 (by decide)).1,
    ((setup_bucket_idempotent ⟨⟨"http://s3", "ak", "sk", "data"⟩, ["data"]⟩
      none (some "boom") "data").1 (by decide)).2⟩

/-! ### Claim C10 -/

/-- C10: the cached Bucket Registry is fixed at construction: any successful
`setup_bucket` returns a state with the same bucket list, and after the
create path runs for an absent bucket that bucket is still reported absent by
`is_bucket_exists` on the returned state. -/
theorem bucket_registry_fixed (st : S3State) (ce : Option String) (name : String) :
    (∀ st2, (setup_bucket st ce name).2 = .ok st2 → st2.buckets = st.buckets) ∧
    (is_bucket_exists st name = false →
      (setup_bucket st none name).1 = [.createBucket name] ∧
      ∀ st2, (setup_bucket st none name).2 = .ok st2 →
        is_bucket_exists st2 name = false) := by
  constructor
  · intro st2 h
    by_cases hb : is_bucket_exists st name = true
    · simp [setup_bucket, hb] at h
      rw [← h]
    · cases ce with
      | none =>
        simp [setup_bucket, hb] at h
        rw [← h]
      | some e =>
        simp [setup_bucket, hb] at h
  · intro hb
    refine ⟨by simp [setup_bucket, hb], ?_⟩
    intro st2 h
    simp [setup_bucket, hb] at h
    rw [← h]
    exact hb

theorem bucket_registry_fixed_witness :
    (setup_bucket ⟨⟨"http://s3", "ak", "sk", "data"⟩, []⟩ none "data").1 =
      [.createBucket "data"] ∧
    ∀ st2, (setup_bucket ⟨⟨"http://s3", "ak", "sk", "data"⟩, []⟩ none "data").2 =
        .ok st2 → is_bucket_exists st2 "data" = false :=
  (bucket_registry_fixed ⟨⟨"http://s3", "ak", "sk", "data"⟩, []⟩ none "data").2
    (by decide)

theorem digitChar_inj_lt : ∀ a, a < 10 → ∀ b, b < 10 →
    Nat.digitChar a = Nat.digitChar b → a = b := by decide

theorem timestampSpec_data (t : DateTimeUTC) :
    (timestampSpec t).data =
      [Nat.digitChar (t.year / 1000 % 10), Nat.digitChar (t.year / 100 % 10),
       Nat.digitChar (t.year / 10 % 10), Nat.digitChar (t.year % 10),
       Nat.digitChar (t.month / 10 % 10), Nat.digitChar (t.month % 10),
       Nat.digitChar (t.day / 10 % 10), Nat.digitChar (t.day % 10), '_',
       Nat.digitChar (t.hour / 10 % 10), Nat.digitChar (t.hour % 10),
       Nat.digitChar (t.minute / 10 % 10), Nat.digitChar (t.minute % 10),
       Nat.digitChar (t.second / 10 % 10), Nat.digitChar (t.second % 10),
       '_', 'U', 'T', 'C'] := rfl

/-! ### Claim C9 -/

/-- C9: paths generated by two invocations whose UTC times (truncated to
whole seconds) differ are distinct — the timestamp determines the path at
one-second resolution.  (Two invocations within the same whole second use
equal timestamps and trivially produce the same path.) -/
theorem generated_paths_distinct (cfg : DumpConfig) (t1 t2 : DateTimeUTC)
    (h1 : ValidTime t1) (h2 : ValidTime t2)
    (hne : ¬ (t1.year = t2.year ∧ t1.month = t2.month ∧ t1.day = t2.day ∧
      t1.hour = t2.hour ∧ t1.minute = t2.minute ∧ t1.second = t2.second)) :
    generated_output_file cfg t1 ≠ generated_output_file cfg t2 := by
  obtain ⟨hy1a, hy1b, hmo1a, hmo1b, hd1a, hd1b, hh1, hmi1, hs1⟩ := h1
  obtain ⟨hy2a, hy2b, hmo2a, hmo2b, hd2a, hd2b, hh2, hmi2, hs2⟩ := h2
  intro heq
  apply hne
  unfold generated_output_file at heq
  rw [generate_timestamp_eq_spec
      ⟨hy1a, hy1b, hmo1a, hmo1b, hd1a, hd1b, hh1, hmi1, hs1⟩,
    generate_timestamp_eq_spec
      ⟨hy2a, hy2b, hmo2a, hmo2b, hd2a, hd2b, hh2, hmi2, hs2⟩] at heq
  have hdata := congrArg String.data heq
  simp only [String.data_append, List.append_assoc] at hdata
  have h3 := List.append_cancel_left hdata
  have h4 := List.append_cancel_left h3
  have h5 := List.append_cancel_left h4
  have h6 := List.append_cancel_left h5
  have hts := List.append_cancel_right h6
  rw [timestampSpec_data, timestampSpec_data] at hts
  simp at hts
  obtain ⟨e1, e2, e3, e4, e5, e6, e7, e8, e9, e10, e11, e12, e13, e14⟩ := hts
  have hy : t1.year = t2.year := by
    have g1 := digitChar_inj_lt _ (by omega) _ (by omega) e1
    have g2 := digitChar_inj_lt _ (by omega) _ (by omega) e2
    have g3 := digitChar_inj_lt _ (by omega) _ (by omega) e3
    have g4 := digitChar_inj_lt _ (by omega) _ (by omega) e4
    omega
  have hmo : t1.month = t2.month := by
    have g1 := digitChar_inj_lt _ (by omega) _ (by omega) e5
    have g2 := digitChar_inj_lt _ (by omega) _ (by omega) e6
    omega
  have hda : t1.day = t2.day := by
    have g1 := digitChar_inj_lt _ (by omega) _ (by omega) e7
    have g2 := digitChar_inj_lt _ (by omega) _ (by omega) e8
    omega
  have hho : t1.hour = t2.hour := by
    have g1 := digitChar_inj_lt _ (by omega) _ (by omega) e9
    have g2 := digitChar_inj_lt _ (by omega) _ (by omega) e10
    omega
  have hmi : t1.minute = t2.minute := by
    have g1 := digitChar_inj_lt _ (by omega) _ (by omega) e11
    have g2 := digitChar_inj_lt _ (by omega) _ (by omega) e12
    omega
  have hse : t1.second = t2.second := by
    have g1 := digitChar_inj_lt _ (by omega) _ (by omega) e13
    have g2 := digitChar_inj_lt _ (by omega) _ (by omega) e14
    omega
  exact ⟨hy, hmo, hda, hho, hmi, hse⟩

theorem generated_paths_distinct_witness :
    generated_output_file ⟨"u", "pw", "/tmp/b", "h", "5432", "nightly"⟩
        ⟨2026, 10, 12, 3, 4, 5⟩ ≠
      generated_output_file ⟨"u", "pw", "/tmp/b", "h", "5432", "nightly"⟩
        ⟨2026, 10, 12, 3, 4, 7⟩ :=
  generated_paths_distinct ⟨"u", "pw", "/tmp/b", "h", "5432", "nightly"⟩
    ⟨2026, 10, 12, 3, 4, 5⟩ ⟨2026, 10, 12, 3, 4, 7⟩ (by decide) (by decide)
    (by decide)

/-! ### Claim C1 -/

/-- C1: in every run, any pipeline invocation in the effect trace is strictly
preceded by the connectivity probe (the trace splits around a `connect` that
comes before the `runCmd`); and when the connection attempt fails, the run
errors, the external dump command is never executed (so the pipeline never
creates the dump file) and no put-object call is made. -/
theorem connectivity_check_precedes_dump (c : MainConfig) (env : MainEnv) :
    (∀ e, env.dump.connectErr = some e →
      (∃ err, (main_run c env).2 = .error err) ∧
      (∀ cm, Effect.runCmd cm ∉ (main_run c env).1) ∧
      (∀ f b k, Effect.uploadFile f b k ∉ (main_run c env).1)) ∧
    (∀ cm, Effect.runCmd cm ∈ (main_run c env).1 →
      ∃ l1 l2, (main_run c env).1 =
        l1 ++ Effect.connect c.db_name :: l2 ∧ Effect.runCmd cm ∈ l2) := by
  constructor
  · intro e hce
    have hdef : dump_db (mkDumpConfig c) env.dump env.now c.db_name none =
        dump_db_resolved (mkDumpConfig c) env.dump c.db_name
          (generated_output_file (mkDumpConfig c) env.now) := rfl
    obtain ⟨⟨err, herr⟩, hnorun⟩ := dump_db_resolved_connect_fail (mkDumpConfig c)
      env.dump c.db_name (generated_output_file (mkDumpConfig c) env.now) e hce
    have hm := main_run_dump_fail c env err (by rw [hdef]; exact herr)
    refine ⟨⟨err, by rw [hm]⟩, ?_, ?_⟩
    · intro cm hmem
      rw [hm] at hmem
      rw [hdef] at hmem
      exact hnorun cm hmem
    · intro f b k hmem
      rw [hm, hdef] at hmem
      have hsh := dump_db_resolved_mem _ _ _ _ _ hmem
      rcases hsh with h2 | h2 | ⟨m, h2⟩ | ⟨cm2, h2⟩ | h2 <;> simp at h2
  · intro cm hmem
    obtain ⟨rest, hsh⟩ := main_run_runCmd_shape c env cm hmem
    refine ⟨[.prepareDir (generated_output_file (mkDumpConfig c) env.now)],
      .runCmd cm :: rest, ?_, by simp⟩
    rw [hsh]
    simp

theorem connectivity_check_precedes_dump_witness :
    (∃ err, (main_run
      ⟨"u", "h", "pw", "5432", "orders", "http://s3", "bk", "ak", "sk",
        "nightly", "/tmp/b"⟩
      ⟨⟨true, true, some "refused", ⟨0, 0, ""⟩, true, true⟩,
        ⟨2026, 10, 12, 3, 4, 5⟩, [], none, true, true, none, true⟩).2 =
          .error err) ∧
    (∀ cm, Effect.runCmd cm ∉ (main_run
      ⟨"u", "h", "pw", "5432", "orders", "http://s3", "bk", "ak", "sk",
        "nightly", "/tmp/b"⟩
      ⟨⟨true, true, some "refused", ⟨0, 0, ""⟩, true, true⟩,
        ⟨2026, 10, 12, 3, 4, 5⟩, [], none, true, true, none, true⟩).1) ∧
    (∀ f b k, Effect.uploadFile f b k ∉ (main_run
      ⟨"u", "h", "pw", "5432", "orders", "http://s3", "bk", "ak", "sk",
        "nightly", "/tmp/b"⟩
      ⟨⟨true, true, some "refused", ⟨0, 0, ""⟩, true, true⟩,
        ⟨2026, 10, 12, 3, 4, 5⟩, [], none, true, true, none, true⟩).1) :=
  (connectivity_check_precedes_dump
    ⟨"u", "h", "pw", "5432", "orders", "http://s3", "bk", "ak", "sk",
      "nightly", "/tmp/b"⟩
    ⟨⟨true, true, some "refused", ⟨0, 0, ""⟩, true, true⟩,
      ⟨2026, 10, 12, 3, 4, 5⟩, [], none, true, true, none, true⟩).1
    "refused" rfl

/-! ### Claim C3 -/

/-- C3: a path returned by `dump_db` when no explicit output path is given
equals the output directory, the path separator, the filename prefix, a dot,
the UTC timestamp in `YYYYMMDD_HHMMSS_UTC` form (each of month, day, hour,
minute, second zero-padded to two digits) and the suffix `.sql.gz`. -/
theorem dump_db_generated_path_format (cfg : DumpConfig) (env : DumpEnv)
    (now : DateTimeUTC) (dbname out : String) (hv : ValidTime now)
    (h : (dump_db cfg env now dbname none).2 = .ok out) :
    out = cfg.output_dir ++ osSep ++ cfg.dump_filename_pref ++ "." ++
      timestampSpec now ++ ".sql.gz" := by
  have hdef : dump_db cfg env now dbname none =
      dump_db_resolved cfg env dbname (generated_output_file cfg now) := rfl
  rw [hdef] at h
  have hout := dump_db_resolved_ok cfg env dbname _ out h
  rw [hout]
  unfold generated_output_file
  rw [generate_timestamp_eq_spec hv]

theorem dump_db_generated_path_format_witness :
    ValidTime ⟨2026, 10, 12, 3, 4, 5⟩ ∧
    generated_output_file ⟨"u", "pw", "/tmp/b", "h", "5432", "nightly"⟩
        ⟨2026, 10, 12, 3, 4, 5⟩ =
      "/tmp/b" ++ osSep ++ "nightly" ++ "." ++
        timestampSpec ⟨2026, 10, 12, 3, 4, 5⟩ ++ ".sql.gz" :=
  ⟨by decide,
    dump_db_generated_path_format ⟨"u", "pw", "/tmp/b", "h", "5432", "nightly"⟩
      ⟨true, true, none, ⟨0, 0, ""⟩, true, true⟩ ⟨2026, 10, 12, 3, 4, 5⟩ "orders"
      (generated_output_file ⟨"u", "pw", "/tmp/b", "h", "5432", "nightly"⟩
        ⟨2026, 10, 12, 3, 4, 5⟩)
      (by decide) rfl⟩

/-! ### Claim C8 -/

/-- C8: the local dump artifact is removed only after a successful upload: if
the upload call fails, no remove-file effect occurs (the artifact stays on
disk), and whenever a remove-file effect occurs the upload outcome was
success, the run's result is ok, and the trace splits with the put-object
call strictly before the removal. -/
theorem cleanup_only_after_upload (c : MainConfig) (env : MainEnv) :
    (∀ e, env.uploadErr = some e →
      ∀ f, Effect.removeFile f ∉ (main_run c env).1) ∧
    (∀ f, Effect.removeFile f ∈ (main_run c env).1 →
      env.uploadErr = none ∧ (main_run c env).2 = .ok () ∧
      ∃ l1 l2, (main_run c env).1 =
        l1 ++ Effect.uploadFile f c.s3_data_bucket (basename f) :: l2 ∧
        Effect.removeFile f ∈ l2) := by
  constructor
  · intro e he f hmem
    obtain ⟨hue, _, _, _, _⟩ := main_run_remove_mem c env f hmem
    rw [he] at hue
    exact Option.noConfusion hue
  · intro f hmem
    obtain ⟨hue, hex, hisf, hok, hdec⟩ := main_run_remove_mem c env f hmem
    exact ⟨hue, hok, hdec⟩

theorem cleanup_only_after_upload_witness :
    ∀ f, Effect.removeFile f ∉ (main_run
      ⟨"u", "h", "pw", "5432", "orders", "http://s3", "bk", "ak", "sk",
        "nightly", "/tmp/b"⟩
      ⟨⟨true, true, none, ⟨0, 0, ""⟩, true, true⟩,
        ⟨2026, 10, 12, 3, 4, 5⟩, [], none, true, true, some "neterr",
        true⟩).1 :=
  (cleanup_only_after_upload
    ⟨"u", "h", "pw", "5432", "orders", "http://s3", "bk", "ak", "sk",
      "nightly", "/tmp/b"⟩
    ⟨⟨true, true, none, ⟨0, 0, ""⟩, true, true⟩,
      ⟨2026, 10, 12, 3, 4, 5⟩, [], none, true, true, some "neterr", true⟩).1
    "neterr" rfl

/-! ### Claim C7 -/

/-- C7, as stated, is false: `_check_connection` logs the contextual message
but re-raises the ORIGINAL exception with a bare `raise`, so the error
propagated to the caller is the underlying cause alone.  At host `dbhost`
with cause `timeout`, the propagated error text is `timeout`, which does not
contain the host. -/
theorem check_connection_context_counterexample :
    ¬ (∀ (cfg : DumpConfig) (dbname e msg : String),
        (check_connection cfg (some e) dbname).2 = .error msg →
        strContains msg cfg.host = true ∧ strContains msg dbname = true ∧
        strContains msg cfg.user = true ∧ strContains msg e = true) := by
  intro h
  have hc := h ⟨"alice", "pw", "/tmp", "dbhost", "5432", "bk"⟩ "orders" "timeout"
    "timeout" rfl
  exact absurd hc.1 (by decide)

/-- C7 amended: on a connectivity failure the run fails fast — the propagated
error is the original underlying cause — and the host/database/user context
together with that cause is emitted as an error-level log message, not
attached to the propagated error. -/
theorem check_connection_logs_context (cfg : DumpConfig) (dbname e : String) :
    (check_connection cfg (some e) dbname).2 = .error e ∧
    (check_connection cfg (some e) dbname).1 =
      [.connect dbname, .logError (connFailMsg cfg dbname e)] ∧
    strContains (connFailMsg cfg dbname e) cfg.host = true ∧
    strContains (connFailMsg cfg dbname e) dbname = true ∧
    strContains (connFailMsg cfg dbname e) cfg.user = true ∧
    strContains (connFailMsg cfg dbname e) e = true := by
  refine ⟨rfl, rfl, ?_, ?_, ?_, ?_⟩
  · refine strContains_of_eq_parts (a := "Unable to connect to postgres for host=")
      (c := ", dbname=" ++ dbname ++ " and user=" ++ cfg.user ++ " for Reason: " ++ e) ?_
    apply String.ext
    simp [connFailMsg, String.data_append]
  · refine strContains_of_eq_parts
      (a := "Unable to connect to postgres for host=" ++ cfg.host ++ ", dbname=")
      (c := " and user=" ++ cfg.user ++ " for Reason: " ++ e) ?_
    apply String.ext
    simp [connFailMsg, String.data_append]
  · refine strContains_of_eq_parts
      (a := "Unable to connect to postgres for host=" ++ cfg.host ++ ", dbname=" ++
        dbname ++ " and user=")
      (c := " for Reason: " ++ e) ?_
    apply String.ext
    simp [connFailMsg, String.data_append]
  · refine strContains_of_eq_parts
      (a := "Unable to connect to postgres for host=" ++ cfg.host ++ ", dbname=" ++
        dbname ++ " and user=" ++ cfg.user ++ " for Reason: ")
      (c := "") ?_
    apply String.ext
    simp [connFailMsg, String.data_append]

end PgBackup

